import Mathlib

/-
  Verification development for the coffee cupping application.

  Shallow embedding of the scoring and session-aggregation engine:
  - src/streamlit_app.py      (show_scoring_interface, lines 1747-1904)
  - src/components/cupping_interface.py (render_scoring_interface, render_share_export)
  - src/utils/analytics.py    (CuppingAnalytics)
  - src/database/db_manager.py (DatabaseManager, JSON backend)

  Floating point values in the source are all quarter-point (or coarser)
  increments well inside the exact range of IEEE doubles, so sums and
  comparisons are exact; they are modelled by rational numbers.
  Python dictionaries are modelled by insertion-ordered association lists,
  Python truthiness of numbers by a nonzero test, and missing dictionary
  keys by Option.
-/

namespace CoffeeCupping

/-- Python truthiness of an optional numeric value: a missing key (None) and
the number 0 are falsy, every other number is truthy. -/
def pyTruthy : Option ℚ → Bool
  | none => false
  | some q => q != 0

/-- Python truthiness of an optional string: None and the empty string are falsy. -/
def pyTruthyStr : Option String → Bool
  | none => false
  | some s => !s.isEmpty

/-- A coffee sample record (src/components/cupping_interface.py sample dicts,
src/database/db_manager.py samples table). -/
structure Sample where
  name : String
  origin : Option String
  variety : Option String
  process : Option String
  altitude : Option String
  harvest_year : Option String
deriving Repr, DecidableEq

/-- A per-sample score record (the dicts built at src/streamlit_app.py lines
1862-1878 and src/components/cupping_interface.py lines 289-305).  Numeric
fields are Option to model dictionary access via .get. -/
structure Score where
  sample_name : String
  fragrance : Option ℚ
  flavor : Option ℚ
  aftertaste : Option ℚ
  acidity : Option ℚ
  body : Option ℚ
  balance : Option ℚ
  uniformity : Option ℚ
  clean_cup : Option ℚ
  sweetness : Option ℚ
  overall : Option ℚ
  defects : Option ℚ
  total : Option ℚ
  notes : String
  selected_flavors : List String
deriving Repr, DecidableEq

/-- A cupping session record (src/database/db_manager.py cupping_sessions,
and the session dicts held in streamlit session state).  The scores field is
Option (List Score): none models a dict without a scores key. -/
structure Session where
  session_id : Option String
  share_id : Option String
  user_email : Option String
  name : String
  date : Option String
  cupper : Option String
  protocol : Option String
  status : Option String
  samples : List Sample
  scores : Option (List Score)
  session_notes : Option String
  scored_date : Option String
  anonymous_mode : Option Bool
  created_at : Option String
  updated_at : Option String
deriving Repr, DecidableEq

/-- The total score formula of src/streamlit_app.py line 1788:
fragrance + flavor + aftertaste + acidity + body + balance + uniformity +
clean_cup + sweetness + overall - defects. -/
def computeTotal (fr fv af ac bo ba un cl sw ov de : ℚ) : ℚ :=
  fr + fv + af + ac + bo + ba + un + cl + sw + ov - de

/-- The total score formula of src/components/cupping_interface.py lines
371-378 (same operand order as the main interface). -/
def computeTotalCI (fr fv af ac bo ba un cl sw ov de : ℚ) : ℚ :=
  fr + fv + af + ac + bo + ba + un + cl + sw + ov - de

/-- Qualitative grade labels used by the scoring interfaces (emoji prefixes
of the displayed strings dropped). -/
inductive Grade where
  | Outstanding
  | Excellent
  | VeryGood
  | Good
  | Fair
deriving Repr, DecidableEq

/-- Grade thresholds of src/streamlit_app.py lines 1791-1805:
five buckets with inclusive lower bounds 90, 85, 80, 75. -/
def grade (total : ℚ) : Grade :=
  if total ≥ 90 then .Outstanding
  else if total ≥ 85 then .Excellent
  else if total ≥ 80 then .VeryGood
  else if total ≥ 75 then .Good
  else .Fair

/-- Grade thresholds of src/components/cupping_interface.py lines 383-394:
only four buckets, every total below 80 is labelled Good (no Fair bucket). -/
def gradeCI (total : ℚ) : Grade :=
  if total ≥ 90 then .Outstanding
  else if total ≥ 85 then .Excellent
  else if total ≥ 80 then .VeryGood
  else .Good

/-- The canonical attribute list of src/utils/analytics.py lines 16-18
(CuppingAnalytics.categories). -/
def categories : List String :=
  ["fragrance", "flavor", "aftertaste", "acidity", "body", "balance",
   "uniformity", "clean_cup", "sweetness", "overall"]

/-- Dictionary-style attribute access score.get(category) used throughout
src/utils/analytics.py. -/
def Score.getAttr (sc : Score) : String → Option ℚ
  | "fragrance" => sc.fragrance
  | "flavor" => sc.flavor
  | "aftertaste" => sc.aftertaste
  | "acidity" => sc.acidity
  | "body" => sc.body
  | "balance" => sc.balance
  | "uniformity" => sc.uniformity
  | "clean_cup" => sc.clean_cup
  | "sweetness" => sc.sweetness
  | "overall" => sc.overall
  | _ => none

/-- Exact mean of a nonempty list of rationals (np.mean on nonempty input). -/
def qMean (l : List ℚ) : ℚ := l.sum / l.length

/-- The attribute values collected at src/utils/analytics.py line 38 and
line 370: [score.get(category, 0) for score in scores if score.get(category)]
— a value is kept only when it is truthy, i.e. present and nonzero. -/
def truthyVals (scs : List Score) (cat : String) : List ℚ :=
  scs.filterMap fun sc =>
    match sc.getAttr cat with
    | none => none
    | some q => if q = 0 then none else some q

/-- The totals collected at src/utils/analytics.py line 42, line 77 and
line 360: score totals that are present and nonzero. -/
def truthyTotals (scs : List Score) : List ℚ :=
  scs.filterMap fun sc =>
    match sc.total with
    | none => none
    | some q => if q = 0 then none else some q

/-- Result of calculate_session_averages (src/utils/analytics.py lines 29-44)
when the session has a nonempty scores list.  The total field is Option ℚ
with none modelling the NaN produced by np.mean of an empty list. -/
structure SessionAverages where
  byCategory : List (String × ℚ)
  total : Option ℚ
deriving Repr, DecidableEq

/-- calculate_session_averages (src/utils/analytics.py lines 29-44): returns
none (the empty dict) when the scores key is absent or the list is empty. -/
def calculateSessionAverages (sess : Session) : Option SessionAverages :=
  match sess.scores with
  | none => none
  | some [] => none
  | some scs =>
    some
      { byCategory := categories.map fun c =>
          (c, if (truthyVals scs c).isEmpty then 0 else qMean (truthyVals scs c))
        total :=
          if (truthyTotals scs).isEmpty then none
          else some (qMean (truthyTotals scs)) }

/-- The guard of src/utils/analytics.py line 71:
session.get('status') == 'Scored' and 'scores' in session. -/
def qualifying (s : Session) : Bool :=
  s.status == some "Scored" && s.scores.isSome

/-- The all_scores list of src/utils/analytics.py lines 76-78: every truthy
score total of every qualifying session, in store order. -/
def allScores (sessions : List Session) : List ℚ :=
  (sessions.filter qualifying).flatMap fun s => truthyTotals (s.scores.getD [])

/-- The all_flavors list of src/utils/analytics.py lines 80-82: flavors are
collected only for scores whose total is truthy. -/
def allFlavors (sessions : List Session) : List String :=
  (sessions.filter qualifying).flatMap fun s =>
    (s.scores.getD []).flatMap fun sc =>
      if pyTruthy sc.total then sc.selected_flavors else []

/-- trends['total_samples'] (src/utils/analytics.py line 73): sample counts
summed over qualifying sessions only. -/
def totalSamplesF (sessions : List Session) : Nat :=
  ((sessions.filter qualifying).map fun s => s.samples.length).sum

/-- Python dict counter update d[k] = d.get(k, 0) + 1: insertion-ordered
association list, increment in place or append a fresh key. -/
def dictIncr (d : List (String × Nat)) (k : String) : List (String × Nat) :=
  match d with
  | [] => [(k, 1)]
  | (k0, v0) :: rest =>
    if k0 = k then (k0, v0 + 1) :: rest else (k0, v0) :: dictIncr rest k

/-- Dictionary lookup with default 0 (d.get(k, 0)). -/
def lookup0 (d : List (String × Nat)) (k : String) : Nat :=
  ((d.find? fun p => p.1 == k).map Prod.snd).getD 0

/-- sample.get('origin', 'Unknown') (src/utils/analytics.py line 99). -/
def sampleOrigin (smp : Sample) : String := smp.origin.getD "Unknown"

/-- The origins visited by the loop at src/utils/analytics.py lines 97-100:
the nested loop runs inside the qualifying-session guard, so only samples of
qualifying sessions are visited, in store order. -/
def originsList (sessions : List Session) : List String :=
  (sessions.filter qualifying).flatMap fun s => s.samples.map sampleOrigin

/-- The origins counter dict built at src/utils/analytics.py lines 97-100. -/
def originsFold (sessions : List Session) : List (String × Nat) :=
  (originsList sessions).foldl dictIncr []

/-- The protocols visited at src/utils/analytics.py lines 102-104 (inside the
qualifying-session guard). -/
def protocolList (sessions : List Session) : List String :=
  (sessions.filter qualifying).map fun s => s.protocol.getD "Unknown"

/-- The protocol usage counter dict (src/utils/analytics.py lines 102-104). -/
def protocolFold (sessions : List Session) : List (String × Nat) :=
  (protocolList sessions).foldl dictIncr []

/-- Python sorted(d.items(), key=count, reverse=True): stable descending sort
by count (ties keep insertion order), as used at lines 125 and 140. -/
def sortByCountDesc (d : List (String × Nat)) : List (String × Nat) :=
  d.mergeSort fun a b => b.2 ≤ a.2

/-- A very small ISO date validator modelling datetime.fromisoformat on the
date strings this app stores (YYYY-MM-DD, optionally followed by a one-char
separator and HH:MM): digits in the date positions, dashes at positions 4 and
7, month 01-12, day 01-31. -/
def validISODate (s : String) : Bool :=
  match s.toList with
  | y1 :: y2 :: y3 :: y4 :: h1 :: m1 :: m2 :: h2 :: d1 :: d2 :: rest =>
    let mv := (m1.toNat - 48) * 10 + (m2.toNat - 48)
    let dv := (d1.toNat - 48) * 10 + (d2.toNat - 48)
    y1.isDigit && y2.isDigit && y3.isDigit && y4.isDigit &&
    h1 = '-' && h2 = '-' &&
    m1.isDigit && m2.isDigit && d1.isDigit && d2.isDigit &&
    1 ≤ mv && mv ≤ 12 && 1 ≤ dv && dv ≤ 31 &&
    (match rest with
     | [] => true
     | _ :: t1 :: t2 :: c :: t3 :: t4 :: [] =>
       t1.isDigit && t2.isDigit && c = ':' && t3.isDigit && t4.isDigit
     | _ => false)
  | _ => false

/-- The try block of src/utils/analytics.py lines 85-87: parse the session
date (a missing key raises and is caught, an invalid string raises and is
caught) and format the month key %Y-%m (first seven characters). -/
def parseMonth (d : Option String) : Option String :=
  match d with
  | none => none
  | some s => if validISODate s then some (String.mk (s.toList.take 7)) else none

/-- Create monthly_data[month_key] = [] if the key is absent
(src/utils/analytics.py lines 88-89). -/
def addMonthKey (d : List (String × List (Option ℚ))) (k : String) :
    List (String × List (Option ℚ)) :=
  if d.any fun p => p.1 == k then d else d ++ [(k, [])]

/-- Append a value to monthly_data[k] (src/utils/analytics.py line 93). -/
def appendMonthVal (d : List (String × List (Option ℚ))) (k : String)
    (v : Option ℚ) : List (String × List (Option ℚ)) :=
  d.map fun p => if p.1 == k then (p.1, p.2 ++ [v]) else p

/-- One qualifying session's contribution to monthly_data
(src/utils/analytics.py lines 84-95).  The truthiness test
session_avg.get('total') is falsy for a missing dict (no scores) and for the
value 0, but TRUTHY for the NaN that np.mean produces on an empty list
(modelled by total = none). -/
def monthlyStep (d : List (String × List (Option ℚ))) (s : Session) :
    List (String × List (Option ℚ)) :=
  match parseMonth s.date with
  | none => d
  | some m =>
    let d1 := addMonthKey d m
    match calculateSessionAverages s with
    | none => d1
    | some av =>
      match av.total with
      | none => appendMonthVal d1 m none
      | some q => if q = 0 then d1 else appendMonthVal d1 m (some q)

/-- monthly_data after the main loop of get_community_trends: only
qualifying sessions reach the temporal block. -/
def monthlyData (sessions : List Session) : List (String × List (Option ℚ)) :=
  sessions.foldl (fun d s => if qualifying s then monthlyStep d s else d) []

/-- One entry of trends['temporal_trends'] (src/utils/analytics.py lines
128-134); average_score is none when NaN. -/
structure TemporalEntry where
  month : String
  average_score : Option ℚ
  sessions_count : Nat
deriving Repr, DecidableEq

/-- np.mean over a list whose elements may be NaN (none): NaN if the list is
empty or contains a NaN. -/
def npMeanO (l : List (Option ℚ)) : Option ℚ :=
  if l.isEmpty || l.any Option.isNone then none
  else some (qMean (l.filterMap id))

/-- trends['temporal_trends'] (src/utils/analytics.py lines 127-137): one
entry per month with a nonempty value list, sorted ascending by month key. -/
def temporalTrends (sessions : List Session) : List TemporalEntry :=
  ((monthlyData sessions).filterMap fun p =>
    if p.2.isEmpty then none
    else some (TemporalEntry.mk p.1 (npMeanO p.2) p.2.length)).mergeSort
    fun a b => a.month ≤ b.month

/-- The category averages across all qualifying sessions
(src/utils/analytics.py lines 111-119). -/
def categoryScoresAll (sessions : List Session) (c : String) : List ℚ :=
  (sessions.filter qualifying).flatMap fun s => truthyVals (s.scores.getD []) c

/-- The trends report dict of get_community_trends. -/
structure Trends where
  total_sessions : Nat
  total_samples : Nat
  average_scores : List (String × ℚ)
  popular_flavors : List (String × Nat)
  score_distribution : List ℚ
  temporal_trends : List TemporalEntry
  top_origins : List (String × Nat)
  protocol_usage : List (String × Nat)
deriving Repr, DecidableEq

/-- get_community_trends (src/utils/analytics.py lines 46-143).  Returns none
(the empty dict) for an empty store.  score_distribution is assigned
all_scores only when nonempty, which coincides with allScores in all cases;
average_scores stays empty when all_scores is empty; popular_flavors is the
top 10 of the flavor counter; top_origins the top 10 of the origins counter. -/
def getCommunityTrends (sessions : List Session) : Option Trends :=
  if sessions.isEmpty then none
  else
    some
      { total_sessions := sessions.length
        total_samples := totalSamplesF sessions
        average_scores :=
          if (allScores sessions).isEmpty then []
          else categories.map fun c =>
            (c, if (categoryScoresAll sessions c).isEmpty then 0
                else qMean (categoryScoresAll sessions c))
        popular_flavors :=
          if (allFlavors sessions).isEmpty then []
          else (sortByCountDesc ((allFlavors sessions).foldl dictIncr [])).take 10
        score_distribution := allScores sessions
        temporal_trends := temporalTrends sessions
        top_origins := (sortByCountDesc (originsFold sessions)).take 10
        protocol_usage := protocolFold sessions }

/-- Python max over an association list with key=second component: the first
item attaining the maximal value (max keeps the earlier item on ties). -/
def pyMaxSnd : List (String × ℚ) → Option (String × ℚ)
  | [] => none
  | x :: rest =>
    match pyMaxSnd rest with
    | none => some x
    | some m => if m.2 > x.2 then some m else some x

/-- Python min over an association list with key=second component: the first
item attaining the minimal value. -/
def pyMinSnd : List (String × ℚ) → Option (String × ℚ)
  | [] => none
  | x :: rest =>
    match pyMinSnd rest with
    | none => some x
    | some m => if m.2 < x.2 then some m else some x

/-- Python max over a nonempty list of numbers. -/
def listMax : List ℚ → Option ℚ
  | [] => none
  | x :: rest =>
    match listMax rest with
    | none => some x
    | some m => some (max x m)

/-- Python min over a nonempty list of numbers. -/
def listMin : List ℚ → Option ℚ
  | [] => none
  | x :: rest =>
    match listMin rest with
    | none => some x
    | some m => some (min x m)

/-- The category_averages dict of src/utils/analytics.py lines 368-372: one
entry per canonical category with a nonempty truthy value list, in canonical
order. -/
def categoryAveragesOf (scs : List Score) : List (String × ℚ) :=
  categories.filterMap fun c =>
    if (truthyVals scs c).isEmpty then none else some (c, qMean (truthyVals scs c))

/-- The insights dict of generate_session_insights; absent keys are none. -/
structure Insights where
  highest_score : Option ℚ
  lowest_score : Option ℚ
  average_score : Option ℚ
  score_range : Option ℚ
  best_category : Option (String × ℚ)
  worst_category : Option (String × ℚ)
  top_flavors : Option (List (String × Nat))
deriving Repr, DecidableEq

/-- The empty insights dict. -/
def emptyInsights : Insights := ⟨none, none, none, none, none, none, none⟩

/-- generate_session_insights (src/utils/analytics.py lines 351-391): empty
result when the scores key is absent or the list is empty; score statistics
over truthy totals; best/worst category via Python max/min over the
category_averages dict; top 5 flavors collected from every score regardless
of its total. -/
def generateSessionInsights (sess : Session) : Insights :=
  match sess.scores with
  | none => emptyInsights
  | some [] => emptyInsights
  | some scs =>
    let ts := truthyTotals scs
    let catAvgs := categoryAveragesOf scs
    let fl := scs.flatMap fun sc => sc.selected_flavors
    { highest_score := if ts.isEmpty then none else listMax ts
      lowest_score := if ts.isEmpty then none else listMin ts
      average_score := if ts.isEmpty then none else some (qMean ts)
      score_range :=
        if ts.isEmpty then none
        else some ((listMax ts).getD 0 - (listMin ts).getD 0)
      best_category := pyMaxSnd catAvgs
      worst_category := pyMinSnd catAvgs
      top_flavors :=
        if fl.isEmpty then none
        else some ((sortByCountDesc (fl.foldl dictIncr [])).take 5) }

/-- DatabaseManager.save_cupping_session with the JSON backend
(src/database/db_manager.py lines 170-181 and 252-257): a FRESH share id is
generated and written into the session on every call (overwriting any
existing one), timestamps are set, the updated record is APPENDED to the
store, and the fresh id is returned.  The uuid-derived id and the clock are
effects, modelled as explicit arguments. -/
def saveCuppingSession (store : List Session) (sess : Session)
    (anonymous : Bool) (newId ts : String) : String × Session × List Session :=
  let s' :=
    { sess with
        share_id := some newId
        anonymous_mode := some anonymous
        created_at := some ts
        updated_at := some ts }
  (newId, s', store ++ [s'])

/-- The save-on-first-share logic of render_share_export
(src/components/cupping_interface.py lines 467-491): nothing happens unless
the session is Scored; the store is written only when the session's share_id
is falsy; the returned (possibly updated) session is what session state
keeps. -/
def renderShareExport (store : List Session) (sess : Session)
    (newId ts : String) : Session × List Session :=
  if sess.status ≠ some "Scored" then (sess, store)
  else if pyTruthyStr sess.share_id then (sess, store)
  else
    let r := saveCuppingSession store sess (sess.anonymous_mode.getD false) newId ts
    if r.1.isEmpty then (r.2.1, r.2.2)
    else ({ r.2.1 with share_id := some r.1 }, r.2.2)

/-- The raw slider/checkbox inputs for one sample in show_scoring_interface
(src/streamlit_app.py lines 1768-1847). -/
structure ScoreInput where
  fragrance : ℚ
  flavor : ℚ
  aftertaste : ℚ
  acidity : ℚ
  body : ℚ
  balance : ℚ
  uniformity : ℚ
  clean_cup : ℚ
  sweetness : ℚ
  overall : ℚ
  defects : ℚ
  notes : String
  selected_flavors : List String
deriving Repr, DecidableEq

/-- The score dict appended to sample_scores at src/streamlit_app.py lines
1862-1878: every attribute is stored, and total is the computed sum. -/
def mkSampleScore (smp : Sample) (inp : ScoreInput) : Score :=
  { sample_name := smp.name
    fragrance := some inp.fragrance
    flavor := some inp.flavor
    aftertaste := some inp.aftertaste
    acidity := some inp.acidity
    body := some inp.body
    balance := some inp.balance
    uniformity := some inp.uniformity
    clean_cup := some inp.clean_cup
    sweetness := some inp.sweetness
    overall := some inp.overall
    defects := some inp.defects
    total := some (computeTotal inp.fragrance inp.flavor inp.aftertaste
      inp.acidity inp.body inp.balance inp.uniformity inp.clean_cup
      inp.sweetness inp.overall inp.defects)
    notes := inp.notes
    selected_flavors := inp.selected_flavors }

/-- The sample_scores list built by the loop at src/streamlit_app.py lines
1760-1878: exactly one score per registered sample, in sample order (the
sliders always carry a value, modelled by the inputs function). -/
def buildSampleScores (samples : List Sample) (inputs : Nat → ScoreInput) :
    List Score :=
  samples.enum.map fun p => mkSampleScore p.2 (inputs p.1)

/-- The Save Scores button of show_scoring_interface (src/streamlit_app.py
lines 1890-1895): the entire scores list and the session notes are replaced,
status is set to Scored and scored_date to the current time (an effect,
modelled as an argument). -/
def showScoringSave (sess : Session) (inputs : Nat → ScoreInput)
    (sessionNotes ts : String) : Session :=
  { sess with
      scores := some (buildSampleScores sess.samples inputs)
      session_notes := some sessionNotes
      status := some "Scored"
      scored_date := some ts }

/-- Replace the first score whose sample_name matches, else append at the
end: the existing_score_idx lookup of src/components/cupping_interface.py
lines 280-284 combined with the save at lines 448-454. -/
def replaceScore : List Score → Score → List Score
  | [], sc => [sc]
  | s0 :: rest, sc =>
    if s0.sample_name = sc.sample_name then sc :: rest
    else s0 :: replaceScore rest sc

/-- The Save Score button of render_scoring_interface
(src/components/cupping_interface.py lines 448-465): store the score for the
selected sample (replacing an existing score for the same sample name), then
set status to Scored exactly when the stored score count equals the sample
count. -/
def saveScoreCI (sess : Session) (sc : Score) : Session :=
  let scores' := replaceScore (sess.scores.getD []) sc
  { sess with
      scores := some scores'
      status :=
        if scores'.length = sess.samples.length then some "Scored"
        else sess.status }

/-! ## Theorems -/

/-- C1: for every set of ten attribute values and a defects value in the
caller-enforced domain, both scoring interfaces compute the total as the
exact arithmetic sum of the ten attributes minus defects, with no rounding;
the spec scenario input gives total 86.5 with defects 0 and 82.5 with
defects 4. -/
theorem C1_total_exact_sum
    (fr fv af ac bo ba un cl sw ov de : ℚ)
    (hfr : 6 ≤ fr ∧ fr ≤ 10) (hfv : 6 ≤ fv ∧ fv ≤ 10)
    (haf : 6 ≤ af ∧ af ≤ 10) (hac : 6 ≤ ac ∧ ac ≤ 10)
    (hbo : 6 ≤ bo ∧ bo ≤ 10) (hba : 6 ≤ ba ∧ ba ≤ 10)
    (hun : 0 ≤ un ∧ un ≤ 10) (hcl : 0 ≤ cl ∧ cl ≤ 10)
    (hsw : 0 ≤ sw ∧ sw ≤ 10) (hov : 6 ≤ ov ∧ ov ≤ 10)
    (hde : 0 ≤ de ∧ de ≤ 10) :
    computeTotal fr fv af ac bo ba un cl sw ov de
        = fr + fv + af + ac + bo + ba + un + cl + sw + ov - de
    ∧ computeTotalCI fr fv af ac bo ba un cl sw ov de
        = fr + fv + af + ac + bo + ba + un + cl + sw + ov - de
    ∧ computeTotal 8 8.5 8 8 8 8 10 10 10 8 0 = 86.5
    ∧ computeTotal 8 8.5 8 8 8 8 10 10 10 8 4 = 82.5 :=
  ⟨rfl, rfl, by norm_num [computeTotal], by norm_num [computeTotal]⟩

/-- Witness for C1 at the spec scenario input. -/
theorem C1_total_exact_sum_witness :
    ((6:ℚ) ≤ 8 ∧ (8:ℚ) ≤ 10) ∧ computeTotal 8 8.5 8 8 8 8 10 10 10 8 0 = 86.5 :=
  ⟨by norm_num,
    (C1_total_exact_sum 8 8.5 8 8 8 8 10 10 10 8 0
      (by norm_num) (by norm_num) (by norm_num) (by norm_num) (by norm_num)
      (by norm_num) (by norm_num) (by norm_num) (by norm_num) (by norm_num)
      (by norm_num)).2.2.1⟩

/-- C2 counterexample: the grade assignment of
src/components/cupping_interface.py maps the total 70 to Good, not to Fair as
the claim requires for every total below 75. -/
theorem C2_counterexample :
    gradeCI 70 = Grade.Good ∧ gradeCI 70 ≠ Grade.Fair := by
  constructor
  · norm_num [gradeCI]
  · norm_num [gradeCI]
    decide

/-- C2 amended: the grade assignment of the main scoring interface
(src/streamlit_app.py) is a pure total function of the total with inclusive
lower bounds 90/85/80/75 and Fair below 75, and each boundary value falls in
the bucket whose lower bound it equals; the cupping_interface variant agrees
with it for totals of at least 80 but maps every total below 80 to Good and
has no Fair bucket. -/
theorem C2_grade_thresholds (t : ℚ) :
    (grade t = .Outstanding ↔ 90 ≤ t)
    ∧ (grade t = .Excellent ↔ 85 ≤ t ∧ t < 90)
    ∧ (grade t = .VeryGood ↔ 80 ≤ t ∧ t < 85)
    ∧ (grade t = .Good ↔ 75 ≤ t ∧ t < 80)
    ∧ (grade t = .Fair ↔ t < 75)
    ∧ grade 90 = .Outstanding ∧ grade 85 = .Excellent
    ∧ grade 80 = .VeryGood ∧ grade 75 = .Good
    ∧ (80 ≤ t → gradeCI t = grade t)
    ∧ (t < 80 → gradeCI t = .Good) := by
  refine ⟨?_, ?_, ?_, ?_, ?_, by norm_num [grade], by norm_num [grade],
    by norm_num [grade], by norm_num [grade], ?_, ?_⟩ <;>
    · simp only [grade, gradeCI]
      split_ifs <;> simp <;> intros <;>
        first | rfl | (constructor <;> linarith) | linarith

/-- Witness for C2 at the totals 70 and 86.5. -/
theorem C2_grade_thresholds_witness :
    ((70:ℚ) < 80) ∧ gradeCI 70 = Grade.Good ∧ grade 86.5 = Grade.Excellent :=
  ⟨by norm_num, (C2_grade_thresholds 70).2.2.2.2.2.2.2.2.2.2 (by norm_num),
    ((C2_grade_thresholds 86.5).2.1).mpr (by norm_num)⟩

/-- A blank session record used as a base for concrete test sessions. -/
def blankSession : Session :=
  { session_id := none, share_id := none, user_email := none, name := "S"
    date := none, cupper := none, protocol := none, status := none
    samples := [], scores := none, session_notes := none, scored_date := none
    anonymous_mode := none, created_at := none, updated_at := none }

/-- A concrete sample from Kenya. -/
def sampleKenya : Sample := ⟨"S1", some "Kenya", none, none, none, none⟩

/-- C6: a session whose scores list is absent or empty makes the session
aggregator (and the session-average helper) return the explicit empty
result, and community trends over an empty store return the explicit empty
result; all three are total functions, so no exception is possible. -/
theorem C6_empty_results (sess : Session)
    (h : sess.scores = none ∨ sess.scores = some []) :
    generateSessionInsights sess = emptyInsights
    ∧ calculateSessionAverages sess = none
    ∧ getCommunityTrends [] = none := by
  rcases h with h | h <;>
    simp [generateSessionInsights, calculateSessionAverages, getCommunityTrends, h]

/-- Witness for C6 at a concrete scoreless session. -/
theorem C6_empty_results_witness :
    (blankSession.scores = none ∨ blankSession.scores = some [])
    ∧ generateSessionInsights blankSession = emptyInsights
    ∧ calculateSessionAverages blankSession = none
    ∧ getCommunityTrends [] = none :=
  ⟨Or.inl rfl, C6_empty_results blankSession (Or.inl rfl)⟩

/-- The length of the collected all_scores list is the sum, over qualifying
sessions, of the number of truthy score totals. -/
theorem length_allScores (sessions : List Session) :
    (allScores sessions).length
      = (sessions.map fun s =>
          if qualifying s then (truthyTotals (s.scores.getD [])).length else 0).sum := by
  induction sessions with
  | nil => rfl
  | cons s rest ih =>
    by_cases hq : qualifying s <;>
      simp [allScores, List.filter_cons, hq, ← ih]

/-- The session that makes claim C3 fail: status Scored, one registered
sample, but an empty scores list. -/
def c3Session : Session :=
  { blankSession with
      status := some "Scored", scores := some [], samples := [sampleKenya] }

/-- C3 counterexample: a store holding one Scored session with one sample and
an empty scores list has a score_distribution of length 0, while the sum of
sample counts over Scored sessions is 1. -/
theorem C3_counterexample :
    (∃ t, getCommunityTrends [c3Session] = some t
      ∧ t.score_distribution.length = 0)
    ∧ (([c3Session].filter fun s => s.status == some "Scored").map
        fun s => s.samples.length).sum = 1 := by
  refine ⟨⟨_, rfl, ?_⟩, ?_⟩ <;> decide

/-- C3 amended: the length of the community trends' score_distribution list
equals the number of scores with a truthy (present and nonzero) total,
summed over sessions with status Scored that carry a scores key; it equals
the sum of sample counts only when every such session has exactly one truthy
scored total per sample. -/
theorem C3_distribution_length (sessions : List Session) (h : sessions ≠ []) :
    ∃ t, getCommunityTrends sessions = some t
      ∧ t.score_distribution.length
        = (sessions.map fun s =>
            if qualifying s then (truthyTotals (s.scores.getD [])).length else 0).sum := by
  cases sessions with
  | nil => exact absurd rfl h
  | cons s rest => exact ⟨_, rfl, length_allScores (s :: rest)⟩

/-- Witness for C3 at a concrete one-session store. -/
theorem C3_distribution_length_witness :
    [c3Session] ≠ []
    ∧ ∃ t, getCommunityTrends [c3Session] = some t
        ∧ t.score_distribution.length
          = (([c3Session]).map fun s =>
              if qualifying s then (truthyTotals (s.scores.getD [])).length else 0).sum :=
  ⟨by decide, C3_distribution_length [c3Session] (by decide)⟩

/-- Lookup in the empty counter dict. -/
theorem lookup0_nil (j : String) : lookup0 [] j = 0 := rfl

/-- Lookup steps over one counter entry. -/
theorem lookup0_cons (k0 : String) (v0 : Nat) (tl : List (String × Nat))
    (j : String) :
    lookup0 ((k0, v0) :: tl) j = if k0 = j then v0 else lookup0 tl j := by
  by_cases h : k0 = j <;> simp [lookup0, List.find?_cons, h]

/-- Counter lookup after one increment: the count of the incremented key goes
up by one, every other count is unchanged. -/
theorem lookup0_dictIncr (d : List (String × Nat)) (k j : String) :
    lookup0 (dictIncr d k) j = lookup0 d j + if k = j then 1 else 0 := by
  induction d with
  | nil =>
    by_cases hkj : k = j <;> simp [dictIncr, lookup0_cons, lookup0_nil, hkj]
  | cons hd tl ih =>
    obtain ⟨k0, v0⟩ := hd
    by_cases h1 : k0 = k
    · subst h1
      by_cases hkj : k0 = j <;> simp [dictIncr, lookup0_cons, hkj]
    · by_cases h0j : k0 = j
      · have hk : ¬k = j := fun hh => h1 (h0j.trans hh.symm)
        have hk2 : ¬j = k := fun hh => h1 (h0j.trans hh)
        simp [dictIncr, h1, lookup0_cons, h0j, hk, hk2]
      · simp [dictIncr, h1, lookup0_cons, h0j, ih]

/-- Counter lookup after folding a list of keys: the count of k grows by the
number of occurrences of k in the list. -/
theorem lookup0_foldl (l : List String) (d : List (String × Nat)) (k : String) :
    lookup0 (l.foldl dictIncr d) k = lookup0 d k + l.count k := by
  induction l generalizing d with
  | nil => simp
  | cons x xs ih =>
    by_cases hx : x = k <;>
      simp [List.count_cons, ih, lookup0_dictIncr, hx] <;> omega

/-- Occurrence counting distributes over flatMap. -/
theorem count_flatMap {α : Type} (f : α → List String) (l : List α) (o : String) :
    ((l.flatMap f).count o) = (l.map fun a => (f a).count o).sum := by
  induction l with
  | nil => rfl
  | cons x xs ih => simp [List.count_append, ih]

/-- The claim's description of the top_origins tally, stated from the claim's
words for comparison with the source behaviour: frequency count of
sample.origin over the samples of every stored session that has samples,
regardless of the session's status. -/
def originsCountClaimed (sessions : List Session) (o : String) : Nat :=
  ((sessions.filter fun s => !s.samples.isEmpty).flatMap
    fun s => s.samples.map sampleOrigin).count o

/-- The session that refutes claim C4: it has a sample but its status is
Created, so the source's origin tally never sees it. -/
def c4Session : Session :=
  { blankSession with status := some "Created", samples := [sampleKenya] }

/-- C4 counterexample: for a store holding one unscored session with one
Kenyan sample, the source's origins counter is empty (count 0 for Kenya),
while the claim's status-independent tally counts 1. -/
theorem C4_counterexample :
    lookup0 (originsFold [c4Session]) "Kenya" = 0
    ∧ originsCountClaimed [c4Session] "Kenya" = 1 := by
  constructor <;> decide

/-- C4 amended: top_origins is the frequency count of sample.origin only
over the samples of sessions with status Scored that carry a scores key (the
origin loop runs inside the scored-session guard), truncated to the 10 most
frequent origins by count; it is not the status-independent tally the claim
describes. -/
theorem C4_origins_scored_only (sessions : List Session) (o : String) :
    lookup0 (originsFold sessions) o
      = ((sessions.filter qualifying).map
          fun s => (s.samples.map sampleOrigin).count o).sum
    ∧ (∀ t, getCommunityTrends sessions = some t →
        t.top_origins = (sortByCountDesc (originsFold sessions)).take 10) := by
  constructor
  · rw [originsFold, lookup0_foldl, lookup0_nil, Nat.zero_add, originsList,
      count_flatMap]
  · intro t ht
    cases sessions with
    | nil => simp [getCommunityTrends] at ht
    | cons s rest =>
      obtain rfl : _ = t := Option.some_injective _ ht
      rfl

/-- Witness for C4's universally quantified part at a concrete store. -/
theorem C4_origins_scored_only_witness :
    lookup0 (originsFold [c4Session, c3Session]) "Kenya"
      = (([c4Session, c3Session].filter qualifying).map
          fun s => (s.samples.map sampleOrigin).count "Kenya").sum
    ∧ ∃ t, getCommunityTrends [c4Session, c3Session] = some t
        ∧ t.top_origins
          = (sortByCountDesc (originsFold [c4Session, c3Session])).take 10 :=
  ⟨(C4_origins_scored_only [c4Session, c3Session] "Kenya").1,
    ⟨_, rfl, (C4_origins_scored_only [c4Session, c3Session] "Kenya").2 _ rfl⟩⟩

/-- Unfolding equation of pyMaxSnd on a cons cell. -/
theorem pyMaxSnd_cons (a : String × ℚ) (l : List (String × ℚ)) :
    pyMaxSnd (a :: l)
      = match pyMaxSnd l with
        | none => some a
        | some m => if m.2 > a.2 then some m else some a := rfl

/-- Unfolding equation of pyMinSnd on a cons cell. -/
theorem pyMinSnd_cons (a : String × ℚ) (l : List (String × ℚ)) :
    pyMinSnd (a :: l)
      = match pyMinSnd l with
        | none => some a
        | some m => if m.2 < a.2 then some m else some a := rfl

/-- Python max over key-value pairs returns the first pair attaining the
maximal value: the list splits as a strict prefix (all strictly smaller), the
returned element, and a suffix (all at most the returned value). -/
theorem pyMaxSnd_first_max (g : String → ℚ) :
    ∀ l : List String, l ≠ [] →
      ∃ l1 c l2, l = l1 ++ c :: l2
        ∧ pyMaxSnd (l.map fun x => (x, g x)) = some (c, g c)
        ∧ (∀ y ∈ l, g y ≤ g c) ∧ ∀ y ∈ l1, g y < g c := by
  intro l
  induction l with
  | nil => intro h; exact absurd rfl h
  | cons x rest ih =>
    intro _
    cases rest with
    | nil =>
      exact ⟨[], x, [], rfl, rfl, by simp, by simp⟩
    | cons r rs =>
      obtain ⟨l1, c, l2, hdec, hmax, hall, hpref⟩ := ih (by simp)
      by_cases hgt : g c > g x
      · refine ⟨x :: l1, c, l2, by simp [hdec], ?_, ?_, ?_⟩
        · rw [List.map_cons, pyMaxSnd_cons, hmax]
          simp [hgt]
        · intro y hy
          rcases List.mem_cons.mp hy with rfl | hy
          · exact le_of_lt hgt
          · exact hall y hy
        · intro y hy
          rcases List.mem_cons.mp hy with rfl | hy
          · exact hgt
          · exact hpref y hy
      · refine ⟨[], x, r :: rs, rfl, ?_, ?_, by simp⟩
        · rw [List.map_cons, pyMaxSnd_cons, hmax]
          simp [hgt]
        · intro y hy
          rcases List.mem_cons.mp hy with rfl | hy
          · exact le_refl _
          · exact le_trans (hall y hy) (not_lt.mp hgt)

/-- Python min over key-value pairs returns the first pair attaining the
minimal value. -/
theorem pyMinSnd_first_min (g : String → ℚ) :
    ∀ l : List String, l ≠ [] →
      ∃ l1 c l2, l = l1 ++ c :: l2
        ∧ pyMinSnd (l.map fun x => (x, g x)) = some (c, g c)
        ∧ (∀ y ∈ l, g c ≤ g y) ∧ ∀ y ∈ l1, g c < g y := by
  intro l
  induction l with
  | nil => intro h; exact absurd rfl h
  | cons x rest ih =>
    intro _
    cases rest with
    | nil =>
      exact ⟨[], x, [], rfl, rfl, by simp, by simp⟩
    | cons r rs =>
      obtain ⟨l1, c, l2, hdec, hmin, hall, hpref⟩ := ih (by simp)
      by_cases hlt : g c < g x
      · refine ⟨x :: l1, c, l2, by simp [hdec], ?_, ?_, ?_⟩
        · rw [List.map_cons, pyMinSnd_cons, hmin]
          simp [hlt]
        · intro y hy
          rcases List.mem_cons.mp hy with rfl | hy
          · exact le_of_lt hlt
          · exact hall y hy
        · intro y hy
          rcases List.mem_cons.mp hy with rfl | hy
          · exact hlt
          · exact hpref y hy
      · refine ⟨[], x, r :: rs, rfl, ?_, ?_, by simp⟩
        · rw [List.map_cons, pyMinSnd_cons, hmin]
          simp [hlt]
        · intro y hy
          rcases List.mem_cons.mp hy with rfl | hy
          · exact le_refl _
          · exact le_trans (not_lt.mp hlt) (hall y hy)

/-- The conditional filterMap building a category-averages dict keeps every
entry when every category has at least one truthy value. -/
theorem filterMap_avg_eq_map (scs : List Score) :
    ∀ l : List String, (∀ c ∈ l, truthyVals scs c ≠ []) →
      (l.filterMap fun c =>
        if (truthyVals scs c).isEmpty then none
        else some (c, qMean (truthyVals scs c)))
      = l.map fun c => (c, qMean (truthyVals scs c)) := by
  intro l
  induction l with
  | nil => intro _; rfl
  | cons c cs ih =>
    intro h
    have hc : (if (truthyVals scs c).isEmpty then none
        else some (c, qMean (truthyVals scs c)))
          = some (c, qMean (truthyVals scs c)) := by
      have := h c (by simp)
      simp [List.isEmpty_iff, this]
    rw [List.filterMap_cons, hc, List.map_cons]
    exact congrArg _ (ih fun c' hc' => h c' (by simp [hc']))

/-- When every category has at least one truthy value, the
category_averages dict has one entry per canonical category, in order. -/
theorem categoryAveragesOf_eq_map (scs : List Score)
    (h : ∀ c ∈ categories, truthyVals scs c ≠ []) :
    categoryAveragesOf scs
      = categories.map fun c => (c, qMean (truthyVals scs c)) :=
  filterMap_avg_eq_map scs categories h

/-- C7: for a session with at least one score (and, so that every attribute
has a defined per-session mean, at least one truthy value per attribute),
best_category is the first attribute in the canonical order attaining the
maximal mean — the canonical list splits into a strict prefix of attributes
with strictly smaller means, the chosen attribute, and the rest — and
worst_category is symmetrically the first attribute attaining the minimal
mean (ties broken by first-seen canonical order). -/
theorem C7_best_worst_first_in_order
    (sess : Session) (scs : List Score)
    (hs : sess.scores = some scs) (hne : scs ≠ [])
    (hvals : ∀ c ∈ categories, truthyVals scs c ≠ []) :
    (∃ l1 c l2, categories = l1 ++ c :: l2
      ∧ (generateSessionInsights sess).best_category
          = some (c, qMean (truthyVals scs c))
      ∧ (∀ c' ∈ categories, qMean (truthyVals scs c') ≤ qMean (truthyVals scs c))
      ∧ ∀ c' ∈ l1, qMean (truthyVals scs c') < qMean (truthyVals scs c))
    ∧ ∃ l1 c l2, categories = l1 ++ c :: l2
      ∧ (generateSessionInsights sess).worst_category
          = some (c, qMean (truthyVals scs c))
      ∧ (∀ c' ∈ categories, qMean (truthyVals scs c) ≤ qMean (truthyVals scs c'))
      ∧ ∀ c' ∈ l1, qMean (truthyVals scs c) < qMean (truthyVals scs c') := by
  have hbest : (generateSessionInsights sess).best_category
      = pyMaxSnd (categoryAveragesOf scs) := by
    cases scs with
    | nil => exact absurd rfl hne
    | cons a l => simp [generateSessionInsights, hs]
  have hworst : (generateSessionInsights sess).worst_category
      = pyMinSnd (categoryAveragesOf scs) := by
    cases scs with
    | nil => exact absurd rfl hne
    | cons a l => simp [generateSessionInsights, hs]
  constructor
  · obtain ⟨l1, c, l2, hdec, hmax, hall, hpref⟩ :=
      pyMaxSnd_first_max (fun c => qMean (truthyVals scs c)) categories (by decide)
    refine ⟨l1, c, l2, hdec, ?_, hall, hpref⟩
    rw [hbest, categoryAveragesOf_eq_map scs hvals]
    exact hmax
  · obtain ⟨l1, c, l2, hdec, hmin, hall, hpref⟩ :=
      pyMinSnd_first_min (fun c => qMean (truthyVals scs c)) categories (by decide)
    refine ⟨l1, c, l2, hdec, ?_, hall, hpref⟩
    rw [hworst, categoryAveragesOf_eq_map scs hvals]
    exact hmin

/-- A complete concrete score used by witnesses: every attribute present and
nonzero, total 87. -/
def c7Score : Score :=
  { sample_name := "S1", fragrance := some 8, flavor := some 9
    aftertaste := some 8, acidity := some 8, body := some 8, balance := some 8
    uniformity := some 10, clean_cup := some 10, sweetness := some 10
    overall := some 8, defects := some 0, total := some 87
    notes := "", selected_flavors := ["Citrus"] }

/-- A concrete fully scored one-sample session used by witnesses. -/
def c7Session : Session :=
  { blankSession with
      status := some "Scored", samples := [sampleKenya]
      scores := some [c7Score] }

/-- Witness for C7 at a concrete fully scored session. -/
theorem C7_best_worst_first_in_order_witness :
    (c7Session.scores = some [c7Score] ∧ [c7Score] ≠ []
      ∧ ∀ c ∈ categories, truthyVals [c7Score] c ≠ [])
    ∧ ((∃ l1 c l2, categories = l1 ++ c :: l2
        ∧ (generateSessionInsights c7Session).best_category
            = some (c, qMean (truthyVals [c7Score] c))
        ∧ (∀ c' ∈ categories,
            qMean (truthyVals [c7Score] c') ≤ qMean (truthyVals [c7Score] c))
        ∧ ∀ c' ∈ l1,
            qMean (truthyVals [c7Score] c') < qMean (truthyVals [c7Score] c))
      ∧ ∃ l1 c l2, categories = l1 ++ c :: l2
        ∧ (generateSessionInsights c7Session).worst_category
            = some (c, qMean (truthyVals [c7Score] c))
        ∧ (∀ c' ∈ categories,
            qMean (truthyVals [c7Score] c) ≤ qMean (truthyVals [c7Score] c'))
        ∧ ∀ c' ∈ l1,
            qMean (truthyVals [c7Score] c) < qMean (truthyVals [c7Score] c')) :=
  ⟨⟨rfl, by decide, by decide⟩,
    C7_best_worst_first_in_order c7Session [c7Score] rfl (by decide) (by decide)⟩

/-- A session whose date does not parse contributes nothing to monthly_data:
its step in the fold is the identity. -/
theorem monthlyStep_bad_date (d : List (String × List (Option ℚ)))
    (s : Session) (hdate : parseMonth s.date = none) :
    monthlyStep d s = d := by
  simp [monthlyStep, hdate]

/-- monthly_data over a store ignores an inserted session whose date does
not parse. -/
theorem monthlyData_bad_date (pre post : List Session) (s : Session)
    (hdate : parseMonth s.date = none) :
    monthlyData (pre ++ s :: post) = monthlyData (pre ++ post) := by
  unfold monthlyData
  rw [List.foldl_append, List.foldl_append, List.foldl_cons]
  by_cases hq : qualifying s <;> simp [hq, monthlyStep_bad_date _ s hdate]

/-- C8: a Scored session (with a scores key) whose date is missing or not
ISO-parseable is silently excluded from the temporal aggregation only: the
monthly groups and temporal_trends are exactly those of the store without
it, while its truthy score totals, its flavors, its sample count, its sample
origins and its protocol all still enter the other aggregates; every
function involved is total, so the computation cannot raise. -/
theorem C8_bad_date_excluded_from_temporal_only
    (pre post : List Session) (s : Session) (scs : List Score)
    (hst : s.status = some "Scored") (hsc : s.scores = some scs)
    (hdate : parseMonth s.date = none) :
    temporalTrends (pre ++ s :: post) = temporalTrends (pre ++ post)
    ∧ monthlyData (pre ++ s :: post) = monthlyData (pre ++ post)
    ∧ allScores (pre ++ s :: post)
        = allScores pre ++ truthyTotals scs ++ allScores post
    ∧ allFlavors (pre ++ s :: post)
        = allFlavors pre
          ++ (scs.flatMap fun sc =>
              if pyTruthy sc.total then sc.selected_flavors else [])
          ++ allFlavors post
    ∧ totalSamplesF (pre ++ s :: post)
        = totalSamplesF pre + s.samples.length + totalSamplesF post
    ∧ originsList (pre ++ s :: post)
        = originsList pre ++ s.samples.map sampleOrigin ++ originsList post
    ∧ protocolList (pre ++ s :: post)
        = protocolList pre ++ [s.protocol.getD "Unknown"] ++ protocolList post := by
  have hq : qualifying s = true := by simp [qualifying, hst, hsc]
  have hget : s.scores.getD [] = scs := by rw [hsc]; rfl
  refine ⟨?_, monthlyData_bad_date pre post s hdate, ?_, ?_, ?_, ?_, ?_⟩
  · unfold temporalTrends
    rw [monthlyData_bad_date pre post s hdate]
  · simp [allScores, List.filter_append, List.filter_cons, hq, hget]
  · simp [allFlavors, List.filter_append, List.filter_cons, hq, hget]
  · simp [totalSamplesF, List.filter_append, List.filter_cons, hq]
    omega
  · simp [originsList, List.filter_append, List.filter_cons, hq]
  · simp [protocolList, List.filter_append, List.filter_cons, hq]

/-- The session that instantiates C8's witness: Scored, with a score and a
sample, but an unparseable date string. -/
def c8Session : Session :=
  { blankSession with
      status := some "Scored", samples := [sampleKenya]
      scores := some [c7Score], date := some "not-a-date" }

/-- Witness for C8 at a one-session store whose only session has an
unparseable date. -/
theorem C8_bad_date_excluded_witness :
    (c8Session.status = some "Scored" ∧ c8Session.scores = some [c7Score]
      ∧ parseMonth c8Session.date = none)
    ∧ temporalTrends [c8Session] = temporalTrends []
    ∧ monthlyData [c8Session] = monthlyData []
    ∧ allScores [c8Session]
        = allScores [] ++ truthyTotals [c7Score] ++ allScores []
    ∧ allFlavors [c8Session]
        = allFlavors []
          ++ ([c7Score].flatMap fun sc =>
              if pyTruthy sc.total then sc.selected_flavors else [])
          ++ allFlavors []
    ∧ totalSamplesF [c8Session]
        = totalSamplesF [] + c8Session.samples.length + totalSamplesF []
    ∧ originsList [c8Session]
        = originsList [] ++ c8Session.samples.map sampleOrigin ++ originsList []
    ∧ protocolList [c8Session]
        = protocolList [] ++ [c8Session.protocol.getD "Unknown"]
          ++ protocolList [] :=
  ⟨⟨rfl, rfl, by decide⟩,
    C8_bad_date_excluded_from_temporal_only [] [] c8Session [c7Score]
      rfl rfl (by decide)⟩

/-- The sample names carried by a score list after a replace-or-append save:
unchanged when a score for that sample name already exists, otherwise
extended by the new name. -/
theorem replaceScore_names (l : List Score) (sc : Score) :
    (replaceScore l sc).map (fun s0 => s0.sample_name)
      = if sc.sample_name ∈ l.map (fun s0 => s0.sample_name)
        then l.map (fun s0 => s0.sample_name)
        else l.map (fun s0 => s0.sample_name) ++ [sc.sample_name] := by
  induction l with
  | nil => simp [replaceScore]
  | cons s0 rest ih =>
    by_cases h : s0.sample_name = sc.sample_name
    · simp [replaceScore, h]
    · have h' : ¬sc.sample_name = s0.sample_name := fun hh => h hh.symm
      by_cases hm : sc.sample_name ∈ rest.map (fun s0 => s0.sample_name) <;>
        simp [replaceScore, h, h', hm, ih]

/-- C5: (main interface) the Save Scores submission stores exactly one score
per registered sample, sets status Scored, replaces the whole scores list,
the session notes and the scored date with the submitted data regardless of
any previous value, and replaying the same submission is idempotent;
(per-sample interface) a save marks the session Scored exactly when the
stored score count equals the sample count, and — for a well-formed session
whose score names are distinct names of registered samples — never while
some registered sample still lacks a score. -/
theorem C5_scored_status_and_resubmission
    (sessA : Session) (inputs : Nat → ScoreInput) (notes ts : String)
    (sessB : Session) (sc : Score)
    (hnodupSamples : (sessB.samples.map fun smp => smp.name).Nodup)
    (hsub : ∀ n ∈ (sessB.scores.getD []).map (fun s0 => s0.sample_name),
        n ∈ sessB.samples.map fun smp => smp.name)
    (hnodupScores : ((sessB.scores.getD []).map fun s0 => s0.sample_name).Nodup)
    (hmem : sc.sample_name ∈ sessB.samples.map fun smp => smp.name)
    (hnotScored : sessB.status ≠ some "Scored") :
    (showScoringSave sessA inputs notes ts).status = some "Scored"
    ∧ ((showScoringSave sessA inputs notes ts).scores.getD []).length
        = sessA.samples.length
    ∧ (showScoringSave sessA inputs notes ts).scores
        = some (buildSampleScores sessA.samples inputs)
    ∧ (showScoringSave sessA inputs notes ts).session_notes = some notes
    ∧ (showScoringSave sessA inputs notes ts).scored_date = some ts
    ∧ showScoringSave (showScoringSave sessA inputs notes ts) inputs notes ts
        = showScoringSave sessA inputs notes ts
    ∧ ((saveScoreCI sessB sc).status = some "Scored"
        ↔ ((saveScoreCI sessB sc).scores.getD []).length = sessB.samples.length)
    ∧ ((saveScoreCI sessB sc).status = some "Scored"
        → ∀ smp ∈ sessB.samples,
            ∃ s0 ∈ (saveScoreCI sessB sc).scores.getD [],
              s0.sample_name = smp.name) := by
  have hstat : (saveScoreCI sessB sc).status
      = (if (replaceScore (sessB.scores.getD []) sc).length
            = sessB.samples.length
         then some "Scored" else sessB.status) := rfl
  have hscget : (saveScoreCI sessB sc).scores.getD []
      = replaceScore (sessB.scores.getD []) sc := rfl
  have hiff : (saveScoreCI sessB sc).status = some "Scored"
      ↔ ((saveScoreCI sessB sc).scores.getD []).length
          = sessB.samples.length := by
    rw [hstat, hscget]
    constructor
    · intro h
      by_cases hL : (replaceScore (sessB.scores.getD []) sc).length
          = sessB.samples.length
      · exact hL
      · rw [if_neg hL] at h
        exact absurd h hnotScored
    · intro h
      rw [if_pos h]
  refine ⟨rfl, by simp [showScoringSave, buildSampleScores], rfl, rfl, rfl,
    rfl, hiff, ?_⟩
  intro h smp hsmp
  have hlen : (replaceScore (sessB.scores.getD []) sc).length
      = sessB.samples.length := by
    rw [← hscget]
    exact hiff.mp h
  set l := sessB.scores.getD [] with hl
  set N := sessB.samples.map (fun smp => smp.name) with hN
  have hnames := replaceScore_names l sc
  have hndN' : ((replaceScore l sc).map fun s0 => s0.sample_name).Nodup := by
    rw [hnames]
    by_cases hm : sc.sample_name ∈ l.map fun s0 => s0.sample_name
    · simpa [hm] using hnodupScores
    · rw [if_neg hm]
      exact List.Nodup.append hnodupScores (List.nodup_singleton _)
        (by simpa using hm)
  have hsubN' : ∀ n ∈ (replaceScore l sc).map fun s0 => s0.sample_name,
      n ∈ N := by
    rw [hnames]
    by_cases hm : sc.sample_name ∈ l.map fun s0 => s0.sample_name
    · simpa [hm] using hsub
    · rw [if_neg hm]
      intro n hn
      rcases List.mem_append.mp hn with hn | hn
      · exact hsub n hn
      · rw [List.mem_singleton.mp hn]
        exact hmem
  have hlenN' : ((replaceScore l sc).map fun s0 => s0.sample_name).length
      = N.length := by
    rw [List.length_map, hN, List.length_map]
    exact hlen
  have hperm : List.Perm ((replaceScore l sc).map fun s0 => s0.sample_name) N :=
    (hndN'.subperm hsubN').perm_of_length_le (le_of_eq hlenN'.symm)
  have hmemN' : smp.name ∈ (replaceScore l sc).map fun s0 => s0.sample_name :=
    hperm.symm.subset (by exact List.mem_map.mpr ⟨smp, hsmp, rfl⟩)
  obtain ⟨s0, hs0, hs0n⟩ := List.mem_map.mp hmemN'
  exact ⟨s0, by rw [hscget]; exact hs0, hs0n⟩

/-- Concrete sample A for the C5 witness. -/
def sampleA : Sample := ⟨"A", none, none, none, none, none⟩

/-- Concrete sample B for the C5 witness. -/
def sampleB : Sample := ⟨"B", none, none, none, none, none⟩

/-- Concrete score for sample A. -/
def c5ScoreA : Score := { c7Score with sample_name := "A" }

/-- Concrete score for sample B. -/
def c5ScoreB : Score := { c7Score with sample_name := "B" }

/-- Concrete partially scored two-sample session for the C5 witness. -/
def c5Session : Session :=
  { blankSession with
      status := some "Ready to Score", samples := [sampleA, sampleB]
      scores := some [c5ScoreA] }

/-- Concrete slider input for the C5 witness. -/
def c5Input : ScoreInput := ⟨8, 8, 8, 8, 8, 8, 10, 10, 10, 8, 0, "", []⟩

/-- Witness for C5 at a concrete partially scored two-sample session. -/
theorem C5_scored_status_and_resubmission_witness :
    ((c5Session.samples.map fun smp => smp.name).Nodup
      ∧ (∀ n ∈ (c5Session.scores.getD []).map (fun s0 => s0.sample_name),
          n ∈ c5Session.samples.map fun smp => smp.name)
      ∧ ((c5Session.scores.getD []).map fun s0 => s0.sample_name).Nodup
      ∧ c5ScoreB.sample_name ∈ c5Session.samples.map (fun smp => smp.name)
      ∧ c5Session.status ≠ some "Scored")
    ∧ ((showScoringSave c5Session (fun _ => c5Input) "ok" "t").status
          = some "Scored"
      ∧ ((showScoringSave c5Session (fun _ => c5Input) "ok" "t").scores.getD
          []).length = c5Session.samples.length
      ∧ (showScoringSave c5Session (fun _ => c5Input) "ok" "t").scores
          = some (buildSampleScores c5Session.samples fun _ => c5Input)
      ∧ (showScoringSave c5Session (fun _ => c5Input) "ok" "t").session_notes
          = some "ok"
      ∧ (showScoringSave c5Session (fun _ => c5Input) "ok" "t").scored_date
          = some "t"
      ∧ showScoringSave (showScoringSave c5Session (fun _ => c5Input) "ok" "t")
          (fun _ => c5Input) "ok" "t"
          = showScoringSave c5Session (fun _ => c5Input) "ok" "t"
      ∧ ((saveScoreCI c5Session c5ScoreB).status = some "Scored"
          ↔ ((saveScoreCI c5Session c5ScoreB).scores.getD []).length
              = c5Session.samples.length)
      ∧ ((saveScoreCI c5Session c5ScoreB).status = some "Scored"
          → ∀ smp ∈ c5Session.samples,
              ∃ s0 ∈ (saveScoreCI c5Session c5ScoreB).scores.getD [],
                s0.sample_name = smp.name)) :=
  ⟨⟨by decide, by decide, by decide, by decide, by decide⟩,
    C5_scored_status_and_resubmission c5Session (fun _ => c5Input) "ok" "t"
      c5Session c5ScoreB (by decide) (by decide) (by decide) (by decide)
      (by decide)⟩

/-- A concrete scored session for the C9 counterexample. -/
def c9Session : Session := { blankSession with status := some "Scored" }

/-- C9 counterexample: saving the same session twice through
save_cupping_session returns a different share id the second time (the id is
regenerated on every call) and leaves TWO records in the store, refuting
both the stable-share_id and the no-second-record parts of the claim. -/
theorem C9_counterexample :
    (saveCuppingSession
        (saveCuppingSession [] c9Session false "id1" "t1").2.2
        (saveCuppingSession [] c9Session false "id1" "t1").2.1
        false "id2" "t2").1
      ≠ (saveCuppingSession [] c9Session false "id1" "t1").1
    ∧ (saveCuppingSession
        (saveCuppingSession [] c9Session false "id1" "t1").2.2
        (saveCuppingSession [] c9Session false "id1" "t1").2.1
        false "id2" "t2").2.2.length = 2 := by
  constructor <;> decide

/-- C9 amended: save_cupping_session itself always stamps a fresh share_id
into the session and appends a new record (it is neither create-or-update
nor idempotent); the at-most-once assignment holds one level up, in
render_share_export, which only calls save when the session's share_id is
falsy: a session already carrying a truthy share_id is returned unchanged
with the store untouched, and replaying the share operation after a first
successful save is a no-op, so the share_id is stable at the caller level. -/
theorem C9_save_appends_caller_guards
    (store : List Session) (sess : Session) (anonymous : Bool)
    (newId ts newId2 ts2 : String)
    (hScored : sess.status = some "Scored")
    (hNo : pyTruthyStr sess.share_id = false)
    (hId : newId.isEmpty = false) :
    (saveCuppingSession store sess anonymous newId ts).1 = newId
    ∧ (saveCuppingSession store sess anonymous newId ts).2.1.share_id
        = some newId
    ∧ (saveCuppingSession store sess anonymous newId ts).2.2
        = store ++ [(saveCuppingSession store sess anonymous newId ts).2.1]
    ∧ (∀ store' sess', sess'.status = some "Scored" →
        pyTruthyStr sess'.share_id = true →
        renderShareExport store' sess' newId2 ts2 = (sess', store'))
    ∧ renderShareExport
        (renderShareExport store sess newId ts).2
        (renderShareExport store sess newId ts).1 newId2 ts2
      = renderShareExport store sess newId ts := by
  have hnoop : ∀ (store' : List Session) (sess' : Session) (i t : String),
      sess'.status = some "Scored" → pyTruthyStr sess'.share_id = true →
      renderShareExport store' sess' i t = (sess', store') := by
    intro store' sess' i t h1 h2
    unfold renderShareExport
    rw [if_neg (by simp [h1]), if_pos (by rw [h2])]
  have step1 : renderShareExport store sess newId ts
      = (saveCuppingSession store sess (sess.anonymous_mode.getD false)
          newId ts).2 := by
    unfold renderShareExport
    rw [if_neg (by simp [hScored]), if_neg (by simp [hNo])]
    simp only [saveCuppingSession, hId, Bool.false_eq_true, if_false]
  refine ⟨rfl, rfl, rfl,
    fun store' sess' h1 h2 => hnoop store' sess' newId2 ts2 h1 h2, ?_⟩
  rw [step1]
  have h1 : (saveCuppingSession store sess (sess.anonymous_mode.getD false)
      newId ts).2.1.status = some "Scored" := hScored
  have h2 : pyTruthyStr (saveCuppingSession store sess
      (sess.anonymous_mode.getD false) newId ts).2.1.share_id = true := by
    show pyTruthyStr (some newId) = true
    simp [pyTruthyStr, hId]
  exact hnoop _ _ newId2 ts2 h1 h2

/-- Witness for C9 at a concrete scored session with no share id yet. -/
theorem C9_save_appends_caller_guards_witness :
    (c9Session.status = some "Scored"
      ∧ pyTruthyStr c9Session.share_id = false
      ∧ "id1".isEmpty = false)
    ∧ (saveCuppingSession [] c9Session false "id1" "t1").1 = "id1"
    ∧ (saveCuppingSession [] c9Session false "id1" "t1").2.1.share_id
        = some "id1"
    ∧ (saveCuppingSession [] c9Session false "id1" "t1").2.2
        = [] ++ [(saveCuppingSession [] c9Session false "id1" "t1").2.1]
    ∧ (∀ store' sess', sess'.status = some "Scored" →
        pyTruthyStr sess'.share_id = true →
        renderShareExport store' sess' "id2" "t2" = (sess', store'))
    ∧ renderShareExport
        (renderShareExport [] c9Session "id1" "t1").2
        (renderShareExport [] c9Session "id1" "t1").1 "id2" "t2"
      = renderShareExport [] c9Session "id1" "t1" :=
  ⟨⟨rfl, rfl, rfl⟩,
    C9_save_appends_caller_guards [] c9Session false "id1" "t1" "id2" "t2"
      rfl rfl rfl⟩

/-- The zero-total score used by C10 (its overall attribute is 0 as well). -/
def zeroScore : Score :=
  { c7Score with sample_name := "Z", overall := some 0, total := some 0 }

/-- A concrete session whose only score has total 0. -/
def c10Session : Session := { blankSession with scores := some [zeroScore] }

/-- C10: a score whose total is 0 is treated as missing — it contributes
nothing to the community score_distribution, nothing to the community flavor
collection, and nothing to the truthy totals behind a session's
highest/lowest/average/score_range statistics; an attribute whose value is 0
is dropped from that attribute's mean (both in session averages and in
insights, which share the same filtering); and a session whose only score
has total 0 gets insights with no score statistics at all. -/
theorem C10_zero_treated_as_missing
    (pre post : List Session) (sess : Session) (scs : List Score) (sc : Score)
    (c : String) (s' : Session) (sc' : Score)
    (hzero : sc.total = some 0)
    (hattr : sc.getAttr c = some 0)
    (hs' : s'.scores = some [sc'])
    (hzero' : sc'.total = some 0) :
    allScores (pre ++ { sess with scores := some (scs ++ [sc]) } :: post)
      = allScores (pre ++ { sess with scores := some scs } :: post)
    ∧ allFlavors (pre ++ { sess with scores := some (scs ++ [sc]) } :: post)
      = allFlavors (pre ++ { sess with scores := some scs } :: post)
    ∧ truthyTotals (scs ++ [sc]) = truthyTotals scs
    ∧ truthyVals (scs ++ [sc]) c = truthyVals scs c
    ∧ (generateSessionInsights s').highest_score = none
    ∧ (generateSessionInsights s').lowest_score = none
    ∧ (generateSessionInsights s').average_score = none
    ∧ (generateSessionInsights s').score_range = none := by
  have ht : truthyTotals (scs ++ [sc]) = truthyTotals scs := by
    simp [truthyTotals, List.filterMap_append, hzero]
  have hv : truthyVals (scs ++ [sc]) c = truthyVals scs c := by
    simp [truthyVals, List.filterMap_append, hattr]
  have hq : qualifying { sess with scores := some (scs ++ [sc]) }
      = qualifying { sess with scores := some scs } := by
    simp [qualifying]
  have hins : truthyTotals [sc'] = [] := by
    simp [truthyTotals, hzero']
  refine ⟨?_, ?_, ht, hv, ?_, ?_, ?_, ?_⟩
  · by_cases hqb : qualifying { sess with scores := some scs } <;>
      simp [allScores, List.filter_append, List.filter_cons, hq, hqb, ht]
  · by_cases hqb : qualifying { sess with scores := some scs } <;>
      simp [allFlavors, List.filter_append, List.filter_cons, hq, hqb,
        pyTruthy, hzero]
  all_goals simp [generateSessionInsights, hs', hins]

/-- Witness for C10 at concrete sessions and scores. -/
theorem C10_zero_treated_as_missing_witness :
    (zeroScore.total = some 0
      ∧ zeroScore.getAttr "overall" = some 0
      ∧ c10Session.scores = some [zeroScore])
    ∧ allScores ([] ++ { c7Session with
          scores := some ([c7Score] ++ [zeroScore]) } :: [])
        = allScores ([] ++ { c7Session with scores := some [c7Score] } :: [])
    ∧ allFlavors ([] ++ { c7Session with
          scores := some ([c7Score] ++ [zeroScore]) } :: [])
        = allFlavors ([] ++ { c7Session with scores := some [c7Score] } :: [])
    ∧ truthyTotals ([c7Score] ++ [zeroScore]) = truthyTotals [c7Score]
    ∧ truthyVals ([c7Score] ++ [zeroScore]) "overall"
        = truthyVals [c7Score] "overall"
    ∧ (generateSessionInsights c10Session).highest_score = none
    ∧ (generateSessionInsights c10Session).lowest_score = none
    ∧ (generateSessionInsights c10Session).average_score = none
    ∧ (generateSessionInsights c10Session).score_range = none :=
  ⟨⟨rfl, by decide, rfl⟩,
    C10_zero_treated_as_missing [] [] c7Session [c7Score] zeroScore
      "overall" c10Session zeroScore rfl (by decide) rfl rfl⟩

end CoffeeCupping
